/-
Verification of the Cardano proposal-anchoring prototype.

The repository anchors a JSON proposal to the Cardano chain: it normalizes
the proposal with json.dumps(proposal, sort_keys=True, separators=(",", ":")),
hashes the UTF-8 bytes with SHA-256, stores the payload off-chain (IPFS or
Arweave), embeds the hash and the storage handle as transaction metadata
under a fixed numeric label, and later re-derives the hash from retrieved
content to verify integrity.

This file embeds the relevant code shallowly:
  - a JSON value type mirroring the Python values json.dumps accepts,
  - the normalization (sorted keys, compact separators, ensure_ascii
    escaping) as an executable function,
  - SHA-256 (hashlib.sha256 / hexdigest) as an executable function on byte
    lists,
  - the compute_hash, verify_proposal, build_transaction, anchor_proposal
    and load_wallet logic with external adapters (Blockfrost, IPFS, the
    wallet file) modelled as explicit environment records, and the
    externally visible effects of a run recorded as an action trace.

Theorems about these definitions settle the frozen claims.
-/
import Mathlib

namespace CardanoAnchor

/-! ## Bytes, hex and UTF-8

Machine words are modelled as Nat with explicit reduction mod 2^32 where the
Python/C implementation wraps. -/

/-- The word modulus 2^32 of SHA-256. -/
def w32 : Nat := 4294967296

/-- Lowercase hexadecimal digit for a value below 16 (as produced by
Python hexdigest rendering). -/
def hexDigitChar (n : Nat) : Char :=
  if n < 10 then Char.ofNat (48 + n) else Char.ofNat (87 + n)

/-- The eight lowercase hex digits of one 32-bit word, most significant
first. -/
def hex8chars (n : Nat) : List Char :=
  [hexDigitChar (n / 268435456 % 16), hexDigitChar (n / 16777216 % 16),
   hexDigitChar (n / 1048576 % 16), hexDigitChar (n / 65536 % 16),
   hexDigitChar (n / 4096 % 16), hexDigitChar (n / 256 % 16),
   hexDigitChar (n / 16 % 16), hexDigitChar (n % 16)]

/-- UTF-8 encoding of a single character, as `str.encode("utf-8")` would
produce for it. -/
def utf8EncodeChar (c : Char) : List Nat :=
  let n := c.toNat
  if n < 128 then [n]
  else if n < 2048 then [192 + n / 64, 128 + n % 64]
  else if n < 65536 then [224 + n / 4096, 128 + n / 64 % 64, 128 + n % 64]
  else [240 + n / 262144, 128 + n / 4096 % 64, 128 + n / 64 % 64, 128 + n % 64]

/-- UTF-8 bytes of a string, modelling `s.encode("utf-8")`. -/
def strToBytes (s : String) : List Nat :=
  s.data.foldr (fun c acc => utf8EncodeChar c ++ acc) []

/-! ## SHA-256 (hashlib.sha256)

Executable model of the FIPS 180-4 SHA-256 function used by the code via
`hashlib.sha256(...).hexdigest()`. -/

/-- Right rotation of a 32-bit word. -/
def rotr32 (n x : Nat) : Nat := ((x >>> n) ||| (x <<< (32 - n))) % w32

/-- SHA-256 big sigma 0. -/
def bSig0 (x : Nat) : Nat := rotr32 2 x ^^^ rotr32 13 x ^^^ rotr32 22 x

/-- SHA-256 big sigma 1. -/
def bSig1 (x : Nat) : Nat := rotr32 6 x ^^^ rotr32 11 x ^^^ rotr32 25 x

/-- SHA-256 small sigma 0. -/
def sSig0 (x : Nat) : Nat := rotr32 7 x ^^^ rotr32 18 x ^^^ (x >>> 3)

/-- SHA-256 small sigma 1. -/
def sSig1 (x : Nat) : Nat := rotr32 17 x ^^^ rotr32 19 x ^^^ (x >>> 10)

/-- SHA-256 choice function. -/
def shaCh (e f g : Nat) : Nat := (e &&& f) ^^^ ((e ^^^ 4294967295) &&& g)

/-- SHA-256 majority function. -/
def shaMaj (a b c : Nat) : Nat := (a &&& b) ^^^ (a &&& c) ^^^ (b &&& c)

/-- The eight 32-bit working and chaining variables of SHA-256. -/
structure SHAState where
  a : Nat
  b : Nat
  c : Nat
  d : Nat
  e : Nat
  f : Nat
  g : Nat
  h : Nat

/-- SHA-256 initial hash value. -/
def sha256Init : SHAState :=
  ⟨1779033703, 3144134277, 1013904242, 2773480762,
   1359893119, 2600822924, 528734635, 1541459225⟩

/-- SHA-256 round constants. -/
def shaK : List Nat :=
  [1116352408, 1899447441, 3049323471, 3921009573, 961987163, 1508970993,
   2453635748, 2870763221, 3624381080, 310598401, 607225278, 1426881987,
   1925078388, 2162078206, 2614888103, 3248222580, 3835390401, 4022224774,
   264347078, 604807628, 770255983, 1249150122, 1555081692, 1996064986,
   2554220882, 2821834349, 2952996808, 3210313671, 3336571891, 3584528711,
   113926993, 338241895, 666307205, 773529912, 1294757372, 1396182291,
   1695183700, 1986661051, 2177026350, 2456956037, 2730485921, 2820302411,
   3259730800, 3345764771, 3516065817, 3600352804, 4094571909, 275423344,
   430227734, 506948616, 659060556, 883997877, 958139571, 1322822218,
   1537002063, 1747873779, 1955562222, 2024104815, 2227730452, 2361852424,
   2428436474, 2756734187, 3204031479, 3329325298]

/-- Big-endian 32-bit words from a block of bytes. -/
def toWords : List Nat → List Nat
  | b0 :: b1 :: b2 :: b3 :: rest =>
      (b0 * 16777216 + b1 * 65536 + b2 * 256 + b3) :: toWords rest
  | _ => []

/-- Extend the message schedule: the accumulator holds the words produced so
far, newest first; each step prepends one new word. -/
def extendW : Nat → List Nat → List Nat
  | 0, acc => acc
  | n + 1, acc =>
      let nw := (sSig1 (acc.getD 1 0) + acc.getD 6 0 +
                 sSig0 (acc.getD 14 0) + acc.getD 15 0) % w32
      extendW n (nw :: acc)

/-- One SHA-256 compression round for a given constant/schedule-word pair. -/
def shaRound (st : SHAState) (kw : Nat × Nat) : SHAState :=
  let t1 := (st.h + bSig1 st.e + shaCh st.e st.f st.g + kw.1 + kw.2) % w32
  let t2 := (bSig0 st.a + shaMaj st.a st.b st.c) % w32
  ⟨(t1 + t2) % w32, st.a, st.b, st.c, (st.d + t1) % w32, st.e, st.f, st.g⟩

/-- Process one 64-byte block, updating the chaining state. -/
def processBlock (st : SHAState) (block : List Nat) : SHAState :=
  let ws := (extendW 48 (toWords block).reverse).reverse
  let r := (shaK.zip ws).foldl shaRound st
  ⟨(st.a + r.a) % w32, (st.b + r.b) % w32, (st.c + r.c) % w32,
   (st.d + r.d) % w32, (st.e + r.e) % w32, (st.f + r.f) % w32,
   (st.g + r.g) % w32, (st.h + r.h) % w32⟩

/-- Big-endian 64-bit length field of the padding. -/
def be64 (n : Nat) : List Nat :=
  [n / 72057594037927936 % 256, n / 281474976710656 % 256,
   n / 1099511627776 % 256, n / 4294967296 % 256,
   n / 16777216 % 256, n / 65536 % 256, n / 256 % 256, n % 256]

/-- SHA-256 padding: a 0x80 byte, zeros up to 56 mod 64, then the bit
length, big endian. -/
def padMessage (msg : List Nat) : List Nat :=
  msg ++ 128 :: List.replicate ((119 - msg.length % 64) % 64) 0
      ++ be64 (8 * msg.length)

/-- Split a byte list into 64-byte blocks; the fuel argument bounds the
recursion and is instantiated with the list length. -/
def splitBlocks : Nat → List Nat → List (List Nat)
  | 0, _ => []
  | _ + 1, [] => []
  | n + 1, l => l.take 64 :: splitBlocks n (l.drop 64)

/-- The SHA-256 chaining state after absorbing a whole message. -/
def sha256 (msg : List Nat) : SHAState :=
  let padded := padMessage msg
  (splitBlocks padded.length padded).foldl processBlock sha256Init

/-- Lowercase hex rendering of a SHA-256 state, the `hexdigest()` of the
message. -/
def sha256hex (msg : List Nat) : String :=
  let st := sha256 msg
  String.mk (hex8chars st.a ++ hex8chars st.b ++ hex8chars st.c ++
             hex8chars st.d ++ hex8chars st.e ++ hex8chars st.f ++
             hex8chars st.g ++ hex8chars st.h)

/-! ## JSON values

The values a proposal dictionary may hold, mirroring what Python json.dumps
accepts: strings, ints, the float NaN (serialized as the token NaN because
dumps is called with its default allow_nan=True), booleans, None, lists,
dicts, and objects of types the encoder cannot serialize (dumps raises
TypeError on those; the single-constructor error type below models that
exception). Dicts are association lists; Python dicts never hold a key
twice, which theorems take as a Nodup hypothesis where it matters. -/

/-- The exception json.dumps raises for an unserializable value
(TypeError). The spec calls this EncodingError. -/
inductive EncodingError where
  | typeError
deriving DecidableEq

mutual
inductive JValue where
  | jstr (s : String) : JValue
  | jint (n : Int) : JValue
  | jnan : JValue
  | jbool (b : Bool) : JValue
  | jnull : JValue
  | jarr (xs : JArr) : JValue
  | jobj (l : JObj) : JValue
  | junsupported : JValue

inductive JArr where
  | nil : JArr
  | cons (v : JValue) (rest : JArr) : JArr

inductive JObj where
  | nil : JObj
  | cons (k : String) (v : JValue) (rest : JObj) : JObj
end

/-- Build an object from an association list of entries. -/
def JObj.ofList : List (String × JValue) → JObj
  | [] => .nil
  | (k, v) :: rest => .cons k v (JObj.ofList rest)

/-- The entries of an object, in insertion order. -/
def JObj.toList : JObj → List (String × JValue)
  | .nil => []
  | .cons k v rest => (k, v) :: rest.toList

/-! ## json.dumps with sort_keys=True, separators=(",", ":")

The encoder escapes a string with ensure_ascii=True (the default): quote,
backslash and everything outside printable ASCII are escaped. -/

/-- Escape one character the way the json encoder with ensure_ascii does. -/
def escapeChar (c : Char) : List Char :=
  if c = '"' then ['\\', '"']
  else if c = '\\' then ['\\', '\\']
  else if c = '\n' then ['\\', 'n']
  else if c = '\r' then ['\\', 'r']
  else if c = '\t' then ['\\', 't']
  else if c.toNat = 8 then ['\\', 'b']
  else if c.toNat = 12 then ['\\', 'f']
  else if 32 ≤ c.toNat ∧ c.toNat ≤ 126 then [c]
  else if c.toNat < 65536 then
    '\\' :: 'u' :: [hexDigitChar (c.toNat / 4096 % 16),
                    hexDigitChar (c.toNat / 256 % 16),
                    hexDigitChar (c.toNat / 16 % 16), hexDigitChar (c.toNat % 16)]
  else
    let n := c.toNat - 65536
    let hi := 55296 + n / 1024
    let lo := 56320 + n % 1024
    '\\' :: 'u' :: hexDigitChar (hi / 4096 % 16) :: hexDigitChar (hi / 256 % 16) ::
    hexDigitChar (hi / 16 % 16) :: hexDigitChar (hi % 16) ::
    '\\' :: 'u' :: [hexDigitChar (lo / 4096 % 16), hexDigitChar (lo / 256 % 16),
                    hexDigitChar (lo / 16 % 16), hexDigitChar (lo % 16)]

/-- JSON string literal for s, with the encoder escaping. -/
def encodeJsonString (s : String) : String :=
  String.mk ('"' :: s.data.foldr (fun c acc => escapeChar c ++ acc) ['"'])

/-- Strict lexicographic order on code-point sequences: the order Python
uses to compare the str keys of a dict in sorted(). -/
def charsLt : List Char → List Char → Bool
  | [], [] => false
  | [], _ :: _ => true
  | _ :: _, [] => false
  | a :: as, b :: bs =>
      if a.toNat < b.toNat then true
      else if b.toNat < a.toNat then false
      else charsLt as bs

/-- Non-strict key order derived from the strict one. -/
def keyLe (s t : String) : Bool := !(charsLt t.data s.data)

/-- Sort serialized object entries by key. json.dumps with sort_keys sorts
the dict items before serializing them; sorted() compares item tuples,
which on distinct keys is exactly a comparison of the keys, and both sorts
are stable, so sorting the (key, serialized value) pairs by key gives the
same entry order. -/
def sortEntries (l : List (String × String)) : List (String × String) :=
  l.insertionSort (fun p q => keyLe p.1 q.1 = true)

/-- Render one serialized entry with the ":" separator. -/
def renderEntry (p : String × String) : String :=
  encodeJsonString p.1 ++ ":" ++ p.2

mutual
/-- Serialization of one value by
json.dumps(v, sort_keys=True, separators=(",", ":")); fails with the
TypeError the encoder raises on an unserializable object. -/
def dumpValue : JValue → Except EncodingError String
  | .jstr s => .ok (encodeJsonString s)
  | .jint n => .ok (toString n)
  | .jnan => .ok "NaN"
  | .jbool b => .ok (if b then "true" else "false")
  | .jnull => .ok "null"
  | .jarr xs =>
      match dumpArr xs with
      | .error e => .error e
      | .ok parts => .ok ("[" ++ String.intercalate "," parts ++ "]")
  | .jobj l =>
      match dumpObj l with
      | .error e => .error e
      | .ok entries =>
          .ok ("\x7b" ++ String.intercalate "," ((sortEntries entries).map renderEntry) ++ "\x7d")
  | .junsupported => .error .typeError

/-- Serialize the elements of a list. -/
def dumpArr : JArr → Except EncodingError (List String)
  | .nil => .ok []
  | .cons v rest =>
      match dumpValue v, dumpArr rest with
      | .ok s, .ok ss => .ok (s :: ss)
      | .error e, _ => .error e
      | _, .error e => .error e

/-- Serialize the entries of a dict, in insertion order, keeping the keys. -/
def dumpObj : JObj → Except EncodingError (List (String × String))
  | .nil => .ok []
  | .cons k v rest =>
      match dumpValue v, dumpObj rest with
      | .ok s, .ok ss => .ok ((k, s) :: ss)
      | .error e, _ => .error e
      | _, .error e => .error e
end

/-! ## compute_hash

All four classes define the same method body:

    normalized_json = json.dumps(proposal, sort_keys=True, separators=(",", ":"))
    hash_obj = hashlib.sha256()
    hash_obj.update(normalized_json.encode("utf-8"))
    return hash_obj.hexdigest()
-/

/-- ProposalAnchorer.compute_hash in src/anchor_proposal.py. -/
def ProposalAnchorer.compute_hash (proposal : JValue) : Except EncodingError String :=
  match dumpValue proposal with
  | .error e => .error e
  | .ok normalized_json => .ok (sha256hex (strToBytes normalized_json))

/-- ProposalVerifier.compute_hash in src/verify_proposal.py. -/
def ProposalVerifier.compute_hash (proposal : JValue) : Except EncodingError String :=
  match dumpValue proposal with
  | .error e => .error e
  | .ok normalized_json => .ok (sha256hex (strToBytes normalized_json))

/-- ProposalAnchorer.compute_hash in src/src/commands/anchor_proposal.py
(the Arweave-based pair). -/
def CommandsAnchorer.compute_hash (proposal : JValue) : Except EncodingError String :=
  match dumpValue proposal with
  | .error e => .error e
  | .ok normalized_json => .ok (sha256hex (strToBytes normalized_json))

/-- ProposalVerifier.compute_hash in src/src/commands/verify_proposal.py
(the Arweave-based pair). -/
def CommandsVerifier.compute_hash (proposal : JValue) : Except EncodingError String :=
  match dumpValue proposal with
  | .error e => .error e
  | .ok normalized_json => .ok (sha256hex (strToBytes normalized_json))

mutual
/-- Whether a value contains, anywhere inside it, an object of a type the
json encoder cannot serialize. -/
def hasUnsupportedV : JValue → Bool
  | .jstr _ => false
  | .jint _ => false
  | .jnan => false
  | .jbool _ => false
  | .jnull => false
  | .jarr xs => hasUnsupportedA xs
  | .jobj l => hasUnsupportedO l
  | .junsupported => true

/-- Whether a list contains an unserializable value. -/
def hasUnsupportedA : JArr → Bool
  | .nil => false
  | .cons v rest => hasUnsupportedV v || hasUnsupportedA rest

/-- Whether a dict contains an unserializable value. -/
def hasUnsupportedO : JObj → Bool
  | .nil => false
  | .cons _ v rest => hasUnsupportedV v || hasUnsupportedO rest
end

/-! ## Python value semantics used by the scripts -/

/-- Python truthiness of a JSON value: empty strings, zero, False, None and
empty containers are falsy; everything else is truthy. -/
def pyTruthy : JValue → Bool
  | .jstr s => !(s == "")
  | .jint n => decide (n ≠ 0)
  | .jnan => true
  | .jbool b => b
  | .jnull => false
  | .jarr .nil => false
  | .jarr (.cons _ _) => true
  | .jobj .nil => false
  | .jobj (.cons _ _ _) => true
  | .junsupported => true

/-- Truthiness of the result of dict.get: a missing key gives None, which
is falsy. -/
def pyTruthyOpt : Option JValue → Bool
  | none => false
  | some v => pyTruthy v

/-- Python equality between a JSON value and a str: true only for an equal
string (comparing a str with a value of another type gives False). -/
def pyEqStr : JValue → String → Bool
  | .jstr t, s => t == s
  | _, _ => false

/-- dict.get on an object. Parsed JSON dicts hold each key once, so the
first match is the match. -/
def JObj.get : JObj → String → Option JValue
  | .nil, _ => none
  | .cons k v rest, key => if k == key then some v else rest.get key

/-! ## Verifier (src/verify_proposal.py)

Blockfrost and IPFS are external collaborators; a VerifyEnv models the
responses they would give, and a verification run returns the result
together with the trace of external retrievals it performed. -/

/-- One entry of api.transaction_metadata: a numeric label and its JSON
payload. -/
structure MetaEntry where
  label : Nat
  json_metadata : JValue

/-- The exceptions a verification run can raise. The code raises plain
Exception values with distinct messages; the spec names the middle two
RecordNotFoundError and MissingFieldError. -/
inductive VerifyError where
  | fetchFailed      -- "Failed to fetch transaction metadata: ..."
  | recordNotFound   -- "No proposal metadata found in transaction ..."
  | attributeError   -- metadata.get called on a non-dict payload
  | missingField     -- "Invalid metadata: missing proposal_hash or ipfs_cid"
  | retrievalFailed  -- "Failed to retrieve proposal from IPFS: ..."
  | encodingError    -- compute_hash raised on the retrieved content
deriving DecidableEq

/-- The external world a verification run reads from. -/
structure VerifyEnv where
  metadata_label : Nat
  chain : String → Except Unit (List MetaEntry)
  ipfs : JValue → Except Unit JValue

/-- The dictionary verify_proposal returns. -/
structure VerificationResult where
  transaction_id : String
  verification_successful : Bool
  on_chain_hash : JValue
  computed_hash : String
  ipfs_cid : JValue
  timestamp : Option JValue
  proposal : JValue
  metadata : JValue

/-- External retrievals a verification run performs, in order. -/
inductive VerifyAction where
  | fetchedMetadata (tx_id : String)
  | retrievedContent (cid : JValue)

/-- ProposalVerifier.fetch_transaction_metadata: fetch the transaction
metadata entries and return the payload of the first entry under
METADATA_LABEL, comparing labels as strings, or None when no entry under
the label exists. A failure of either Blockfrost call is re-raised as a
wrapped exception. -/
def ProposalVerifier.fetch_transaction_metadata (env : VerifyEnv) (tx_id : String) :
    Except VerifyError (Option JValue) :=
  match env.chain tx_id with
  | .error _ => .error .fetchFailed
  | .ok metadata =>
      match metadata.find? (fun meta => toString meta.label == toString env.metadata_label) with
      | some meta => .ok (some meta.json_metadata)
      | none => .ok none

/-- ProposalVerifier.verify_proposal: fetch the anchor record, extract
proposal_hash and ipfs_cid, retrieve the proposal, recompute its hash and
compare. The returned trace records which external retrievals ran. -/
def ProposalVerifier.verify_proposal (env : VerifyEnv) (tx_id : String) :
    Except VerifyError VerificationResult × List VerifyAction :=
  match ProposalVerifier.fetch_transaction_metadata env tx_id with
  | .error e => (.error e, [.fetchedMetadata tx_id])
  | .ok none => (.error .recordNotFound, [.fetchedMetadata tx_id])
  | .ok (some metadata) =>
      if pyTruthy metadata = false then
        (.error .recordNotFound, [.fetchedMetadata tx_id])
      else
        match metadata with
        | .jobj md =>
            let proposal_hash := md.get "proposal_hash"
            let ipfs_cid := md.get "ipfs_cid"
            if (!pyTruthyOpt proposal_hash || !pyTruthyOpt ipfs_cid) = true then
              (.error .missingField, [.fetchedMetadata tx_id])
            else
              let cidv := ipfs_cid.getD .jnull
              match env.ipfs cidv with
              | .error _ =>
                  (.error .retrievalFailed,
                   [.fetchedMetadata tx_id, .retrievedContent cidv])
              | .ok proposal =>
                  match ProposalVerifier.compute_hash proposal with
                  | .error _ =>
                      (.error .encodingError,
                       [.fetchedMetadata tx_id, .retrievedContent cidv])
                  | .ok computed_hash =>
                      let phv := proposal_hash.getD .jnull
                      (.ok ⟨tx_id, pyEqStr phv computed_hash, phv, computed_hash,
                            cidv, md.get "timestamp", proposal, metadata⟩,
                       [.fetchedMetadata tx_id, .retrievedContent cidv])
        | _ => (.error .attributeError, [.fetchedMetadata tx_id])

/-! ## Anchorer (src/anchor_proposal.py)

The wallet file, Blockfrost and IPFS are modelled as an AnchorEnv; an
anchor run returns its result together with the ordered trace of the
steps it completed. -/

/-- The wallet fields build_transaction reads. -/
structure WalletData where
  address : String
  payment_skey : String

/-- One unspent output as returned by api.utxos(address). -/
structure BlockfrostUtxo where
  tx_hash : String
  output_index : Nat
  address : String
  amount : Int

/-- The exceptions an anchor run can raise. The code raises plain
Exception values; the spec calls the empty-input failure NoFundsError. -/
inductive AnchorError where
  | encodingError  -- compute_hash raised
  | uploadFailed   -- "Failed to upload to IPFS: ..."
  | noWallet       -- "No wallet found. Please generate a wallet first."
  | noFunds        -- "No UTxOs found. Please fund your wallet with testnet ADA."
  | submitFailed   -- "Failed to submit transaction: ..."
deriving DecidableEq

/-- The metadata record create_metadata builds under METADATA_LABEL. The
source field named type is spelled record_type here because type is a
reserved word. -/
structure AnchorRecord where
  proposal_hash : String
  ipfs_cid : String
  timestamp : Int
  record_type : String

/-- The full transaction metadata object: the record under its label. -/
structure CardanoMetadata where
  label : Nat
  record : AnchorRecord

/-- ProposalAnchorer.create_metadata. -/
def ProposalAnchorer.create_metadata (labelN : Nat) (now : Int)
    (proposal_hash ipfs_cid : String) : CardanoMetadata :=
  ⟨labelN, ⟨proposal_hash, ipfs_cid, now, "community_proposal"⟩⟩

/-- The signed transaction build_transaction assembles: all fetched inputs,
one output of min_ada = 1000000 lovelace back to the own address, the
metadata, and the payment signing key. -/
structure BuiltTransaction where
  inputs : List BlockfrostUtxo
  output_address : String
  output_amount : Int
  metadata : CardanoMetadata
  signed_with : String

/-- The external world an anchor run touches. -/
structure AnchorEnv where
  metadata_label : Nat
  now : Int
  wallet : Option WalletData
  utxos : String → List BlockfrostUtxo
  ipfs_add : JValue → Except Unit String
  submit : BuiltTransaction → Except Unit String

/-- The externally visible steps of an anchor run, in order. -/
inductive AnchorAction where
  | computed_hash (h : String)
  | uploaded (cid : String)
  | created_metadata (m : CardanoMetadata)
  | fetched_utxos (address : String)
  | submitted (tx : BuiltTransaction)

/-- ProposalAnchorer.build_transaction: load the wallet, fetch the UTxOs
of its address, fail when there are none, otherwise build and sign the
transaction from all inputs plus the metadata, and submit it. -/
def ProposalAnchorer.build_transaction (env : AnchorEnv) (metadata : CardanoMetadata) :
    Except AnchorError String × List AnchorAction :=
  match env.wallet with
  | none => (.error .noWallet, [])
  | some wallet_data =>
      let utxos := env.utxos wallet_data.address
      if utxos.isEmpty then
        (.error .noFunds, [.fetched_utxos wallet_data.address])
      else
        let transaction : BuiltTransaction :=
          ⟨utxos, wallet_data.address, 1000000, metadata, wallet_data.payment_skey⟩
        match env.submit transaction with
        | .error _ =>
            (.error .submitFailed,
             [.fetched_utxos wallet_data.address, .submitted transaction])
        | .ok tx_id =>
            (.ok tx_id,
             [.fetched_utxos wallet_data.address, .submitted transaction])

/-- The dictionary anchor_proposal returns. -/
structure AnchorResult where
  transaction_id : String
  proposal_hash : String
  ipfs_cid : String
  metadata_label : Nat

/-- ProposalAnchorer.anchor_proposal: compute the hash, upload the payload
to IPFS obtaining the CID, create the metadata embedding both, then build
and submit the transaction. -/
def ProposalAnchorer.anchor_proposal (env : AnchorEnv) (proposal : JValue) :
    Except AnchorError AnchorResult × List AnchorAction :=
  match ProposalAnchorer.compute_hash proposal with
  | .error _ => (.error .encodingError, [])
  | .ok proposal_hash =>
      match env.ipfs_add proposal with
      | .error _ => (.error .uploadFailed, [.computed_hash proposal_hash])
      | .ok ipfs_cid =>
          let metadata :=
            ProposalAnchorer.create_metadata env.metadata_label env.now proposal_hash ipfs_cid
          let built := ProposalAnchorer.build_transaction env metadata
          let trace := .computed_hash proposal_hash :: .uploaded ipfs_cid ::
                       .created_metadata metadata :: built.2
          match built.1 with
          | .error e => (.error e, trace)
          | .ok tx_id =>
              (.ok ⟨tx_id, proposal_hash, ipfs_cid, env.metadata_label⟩, trace)

/-! ## Wallet loading (src/wallet_utils.py)

load_wallet reads wallet.json. The file system is modelled at the
granularity the function observes: the file is absent, present but not
valid JSON, or present and parsing to a value. -/

/-- Observable states of the wallet file. -/
inductive WalletFileState where
  | absent
  | presentInvalid
  | presentValid (v : JValue)

/-- The exceptions the file read can raise. -/
inductive PyFileError where
  | fileNotFound
  | jsonDecodeError
deriving DecidableEq

/-- os.path.exists on the wallet file. -/
def os_path_exists : WalletFileState → Bool
  | .absent => false
  | _ => true

/-- open followed by json.load on the wallet file. -/
def json_load_wallet_file : WalletFileState → Except PyFileError JValue
  | .absent => .error .fileNotFound
  | .presentInvalid => .error .jsonDecodeError
  | .presentValid v => .ok v

/-- WalletManager.load_wallet: return None when the file does not exist,
parse it otherwise, and turn JSONDecodeError and FileNotFoundError into
None instead of propagating them. -/
def WalletManager.load_wallet (st : WalletFileState) : Except PyFileError (Option JValue) :=
  if os_path_exists st = false then .ok none
  else
    match json_load_wallet_file st with
    | .ok v => .ok (some v)
    | .error .jsonDecodeError => .ok none
    | .error .fileNotFound => .ok none

/-- Lowercase hexadecimal characters: a decimal digit or a letter from a
to f. -/
def isLowerHexChar (c : Char) : Bool :=
  (48 ≤ c.toNat && c.toNat ≤ 57) || (97 ≤ c.toNat && c.toNat ≤ 102)

/-- A content mapping holding a NaN number. -/
def nanContent : JValue := .jobj (.cons "x" .jnan .nil)

/-- A content mapping holding an unserializable object. -/
def unsupportedContent : JValue := .jobj (.cons "x" .junsupported .nil)

/-- The concrete content of the spec scenario, in its written insertion
order: title, description, proposer. -/
def exampleContent : JValue :=
  .jobj (.cons "title" (.jstr "T")
        (.cons "description" (.jstr "D")
        (.cons "proposer" (.jstr "P") .nil)))

/-- Whether an Except result is a success. -/
def isOkE : Except ε α → Bool
  | .ok _ => true
  | .error _ => false

/-- How serializing the entries of two dicts that hold the same entries
relates: both fail with the same exception, or both succeed with entry
lists that are permutations of each other. -/
def dumpRel : Except EncodingError (List (String × String)) →
    Except EncodingError (List (String × String)) → Prop
  | .error a, .error b => a = b
  | .ok r1, .ok r2 => r1.Perm r2
  | _, _ => False

/-! # Theorems -/

/-! ## Sanity checks of the embedded hash pipeline -/

/-- Sanity check against the FIPS 180-4 test vector for "abc". -/
theorem sha256_abc_vector :
    sha256hex (strToBytes "abc") =
      "ba7816bf8f01cfea414140de5dae2223b00361a396177a9cb410ff61f20015ad" := by
  rfl

/-- Sanity check against the SHA-256 digest of the empty message. -/
theorem sha256_empty_vector :
    sha256hex [] =
      "e3b0c44298fc1c149afbf4c8996fb92427ae41e4649b934ca495991b7852b855" := by
  rfl

/-- Sanity check: the spec scenario content normalizes with sorted keys and
no inserted whitespace. -/
theorem exampleContent_dump_check :
    dumpValue exampleContent =
      .ok "\x7b\"description\":\"D\",\"proposer\":\"P\",\"title\":\"T\"\x7d" := by
  rfl

/-- Sanity check: its digest agrees with hashlib.sha256 on the normalized
bytes. -/
theorem exampleContent_hash_check :
    ProposalAnchorer.compute_hash exampleContent =
      .ok "7fb7b755490dc11f8f043dafbddc6dcf3c23ced0d74528774fd91cf8b604e416" := by
  rfl

/-! ## Order properties of the key comparison -/

/-- Characters with equal code points are equal. -/
theorem charToNat_inj {a b : Char} (h : a.toNat = b.toNat) : a = b := by
  cases a; cases b
  simp only [Char.toNat] at h
  congr 1
  exact UInt32.toNat.inj h

/-- Strings with equal character data are equal. -/
theorem stringData_inj {s t : String} (h : s.data = t.data) : s = t := by
  cases s; cases t; exact congrArg String.mk h

theorem charsLt_irrefl : ∀ as, charsLt as as = false
  | [] => rfl
  | _ :: as => by simp [charsLt, charsLt_irrefl as]

theorem charsLt_asymm : ∀ as bs, charsLt as bs = true → charsLt bs as = false
  | [], [] => by simp [charsLt]
  | [], _ :: _ => by simp [charsLt]
  | _ :: _, [] => by simp [charsLt]
  | a :: as, b :: bs => by
      intro h
      simp only [charsLt] at h ⊢
      rcases Nat.lt_trichotomy a.toNat b.toNat with hlt | heq | hgt
      · simp [hlt, Nat.lt_asymm hlt]
      · simp only [heq, Nat.lt_irrefl, if_false] at h ⊢
        exact charsLt_asymm as bs h
      · simp [hgt, Nat.lt_asymm hgt] at h

theorem charsLt_conn : ∀ as bs, charsLt as bs = false → charsLt bs as = false → as = bs
  | [], [] => by simp
  | [], _ :: _ => by simp [charsLt]
  | _ :: _, [] => by simp [charsLt]
  | a :: as, b :: bs => by
      intro h1 h2
      simp only [charsLt] at h1 h2
      rcases Nat.lt_trichotomy a.toNat b.toNat with hlt | heq | hgt
      · simp [hlt] at h1
      · have hab : a = b := charToNat_inj heq
        subst hab
        simp only [Nat.lt_irrefl, if_false] at h1 h2
        rw [charsLt_conn as bs h1 h2]
      · simp [hgt] at h2

theorem charsLt_trans :
    ∀ as bs cs, charsLt as bs = true → charsLt bs cs = true → charsLt as cs = true
  | _, [], [] => by simp [charsLt]
  | _, _ :: _, [] => by simp [charsLt]
  | [], [], _ :: _ => by simp [charsLt]
  | [], _ :: _, _ :: _ => by simp [charsLt]
  | _ :: _, [], _ :: _ => by simp [charsLt]
  | a :: as, b :: bs, c :: cs => by
      intro h1 h2
      simp only [charsLt] at h1 h2 ⊢
      rcases Nat.lt_trichotomy a.toNat b.toNat with hab | hab | hab <;>
        rcases Nat.lt_trichotomy b.toNat c.toNat with hbc | hbc | hbc
      · simp [Nat.lt_trans hab hbc]
      · simp [hbc ▸ hab]
      · simp [Nat.lt_asymm hbc, hbc] at h2
      · simp [hab, hbc]
      · simp only [hab, hbc, Nat.lt_irrefl, if_false] at h1 h2 ⊢
        exact charsLt_trans as bs cs h1 h2
      · simp [Nat.lt_asymm hbc, hbc] at h2
      · simp [Nat.lt_asymm hab, hab] at h1
      · simp [Nat.lt_asymm hab, hab] at h1
      · simp [Nat.lt_asymm hab, hab] at h1

theorem keyLe_total (s t : String) : keyLe s t = true ∨ keyLe t s = true := by
  by_cases h : charsLt t.data s.data = true
  · right
    simp [keyLe, charsLt_asymm _ _ h]
  · left
    simp only [keyLe, Bool.not_eq_true] at h ⊢
    simp [h]

theorem keyLe_trans (s t u : String) (h1 : keyLe s t = true) (h2 : keyLe t u = true) :
    keyLe s u = true := by
  simp only [keyLe, Bool.not_eq_true', Bool.not_eq_true] at h1 h2 ⊢
  by_cases hts : charsLt s.data t.data = true
  · by_cases htu : charsLt t.data u.data = true
    · exact charsLt_asymm _ _ (charsLt_trans _ _ _ hts htu)
    · have : t.data = u.data :=
        charsLt_conn _ _ (Bool.not_eq_true _ ▸ htu) h2
      rw [← this]
      exact charsLt_asymm _ _ hts
  · have : s.data = t.data :=
      charsLt_conn _ _ (Bool.not_eq_true _ ▸ hts) h1
    rw [this]
    exact h2

theorem keyLe_antisymm (s t : String) (h1 : keyLe s t = true) (h2 : keyLe t s = true) :
    s = t := by
  simp only [keyLe, Bool.not_eq_true'] at h1 h2
  exact stringData_inj (charsLt_conn _ _ h2 h1)

/-! ## Canonicalization under permutation of dict entries -/

/-- Any two values of the single-constructor exception type are equal. -/
theorem EncodingError.unique (a b : EncodingError) : a = b := by
  cases a; cases b; rfl

/-- Serializing the entries of two dicts holding the same entries in
different order: both raise, or both succeed with permuted entry lists. -/
theorem dumpObj_ofList_perm {l1 l2 : List (String × JValue)} (h : l1.Perm l2) :
    dumpRel (dumpObj (.ofList l1)) (dumpObj (.ofList l2)) := by
  induction h with
  | nil => exact List.Perm.nil
  | cons x h ih =>
      rename_i t1 t2
      obtain ⟨k, v⟩ := x
      simp only [JObj.ofList, dumpObj]
      cases hv : dumpValue v <;>
        cases h1 : dumpObj (JObj.ofList t1) <;>
          cases h2 : dumpObj (JObj.ofList t2) <;>
            simp only [h1, h2, dumpRel] at ih ⊢
      all_goals first
        | trivial
        | exact ih
        | exact List.Perm.cons _ ih
  | swap x y t =>
      obtain ⟨kx, vx⟩ := x
      obtain ⟨ky, vy⟩ := y
      simp only [JObj.ofList, dumpObj]
      cases hx : dumpValue vx <;>
        cases hy : dumpValue vy <;>
          cases ht : dumpObj (JObj.ofList t) <;>
            simp only [dumpRel]
      all_goals first
        | exact EncodingError.unique _ _
        | exact List.Perm.swap _ _ _
  | trans h1 h2 ih1 ih2 =>
      rename_i u1 u2 u3
      cases d1 : dumpObj (JObj.ofList u1) <;>
        cases d2 : dumpObj (JObj.ofList u2) <;>
          cases d3 : dumpObj (JObj.ofList u3) <;>
            simp only [d1, d2, d3, dumpRel] at ih1 ih2 ⊢
      all_goals first
        | trivial
        | exact ih1.trans ih2

/-- Serializing dict entries keeps the keys, in order. -/
theorem dumpObj_ofList_keys :
    ∀ (l : List (String × JValue)) (r : List (String × String)),
      dumpObj (.ofList l) = .ok r → r.map Prod.fst = l.map Prod.fst
  | [], r => by
      intro h
      simp only [JObj.ofList, dumpObj, Except.ok.injEq] at h
      subst h
      rfl
  | (k, v) :: t, r => by
      intro h
      simp only [JObj.ofList, dumpObj] at h
      cases hv : dumpValue v <;> rw [hv] at h
      · simp at h
      · cases ht : dumpObj (JObj.ofList t) <;> rw [ht] at h
        · simp at h
        · simp only [Except.ok.injEq] at h
          subst h
          simp only [List.map_cons]
          rw [dumpObj_ofList_keys t _ ht]

/-- Sorting by key maps permuted entry lists with distinct keys to the
same sorted list. -/
theorem sortEntries_eq_of_perm {r1 r2 : List (String × String)} (hp : r1.Perm r2)
    (hnd : (r1.map Prod.fst).Nodup) : sortEntries r1 = sortEntries r2 := by
  haveI : IsTotal (String × String) (fun p q => keyLe p.1 q.1 = true) :=
    ⟨fun a b => keyLe_total a.1 b.1⟩
  haveI : IsTrans (String × String) (fun p q => keyLe p.1 q.1 = true) :=
    ⟨fun a b c => keyLe_trans a.1 b.1 c.1⟩
  haveI : IsAntisymm (String × String)
      (fun p q => keyLe p.1 q.1 = true ∧ p.1 ≠ q.1) :=
    ⟨fun a b h1 h2 => absurd (keyLe_antisymm _ _ h1.1 h2.1) h1.2⟩
  have hperm : (sortEntries r1).Perm (sortEntries r2) :=
    (List.perm_insertionSort _ r1).trans (hp.trans (List.perm_insertionSort _ r2).symm)
  have hnd1 : ((sortEntries r1).map Prod.fst).Nodup :=
    ((List.perm_insertionSort _ r1).map Prod.fst).nodup_iff.mpr hnd
  have hnd2 : ((sortEntries r2).map Prod.fst).Nodup :=
    ((List.perm_insertionSort _ r2).map Prod.fst).nodup_iff.mpr
      ((hp.map Prod.fst).nodup_iff.mp hnd)
  have hne1 : (sortEntries r1).Pairwise (fun p q => p.1 ≠ q.1) :=
    List.pairwise_map.mp hnd1
  have hne2 : (sortEntries r2).Pairwise (fun p q => p.1 ≠ q.1) :=
    List.pairwise_map.mp hnd2
  have hs1 : (sortEntries r1).Pairwise (fun p q => keyLe p.1 q.1 = true) :=
    List.sorted_insertionSort _ r1
  have hs2 : (sortEntries r2).Pairwise (fun p q => keyLe p.1 q.1 = true) :=
    List.sorted_insertionSort _ r2
  exact List.eq_of_perm_of_sorted hperm (hs1.and hne1) (hs2.and hne2)

/-- C1: canonicalization is deterministic and order-independent. For any
two content mappings with the same key/value pairs (a permutation of
entries, keys distinct as in a Python dict), the normalization step of
compute_hash produces byte-identical output, and compute_hash produces
the identical fingerprint. -/
theorem claim1_canonicalization_order_independent
    (l1 l2 : List (String × JValue)) (hperm : l1.Perm l2)
    (hnodup : (l1.map Prod.fst).Nodup) :
    dumpValue (.jobj (.ofList l1)) = dumpValue (.jobj (.ofList l2)) ∧
    ProposalAnchorer.compute_hash (.jobj (.ofList l1)) =
      ProposalAnchorer.compute_hash (.jobj (.ofList l2)) := by
  have hdump : dumpValue (.jobj (.ofList l1)) = dumpValue (.jobj (.ofList l2)) := by
    have hrel := dumpObj_ofList_perm hperm
    cases d1 : dumpObj (JObj.ofList l1) <;>
      cases d2 : dumpObj (JObj.ofList l2) <;>
        simp only [d1, d2, dumpRel] at hrel <;>
          simp only [dumpValue, d1, d2]
    rename_i r1 r2
    have hk1 := dumpObj_ofList_keys l1 r1 d1
    have hnd1 : (r1.map Prod.fst).Nodup := by
      rw [hk1]
      exact hnodup
    rw [sortEntries_eq_of_perm hrel hnd1]
  refine ⟨hdump, ?_⟩
  simp only [ProposalAnchorer.compute_hash]
  rw [hdump]

/-- Witness for C1 at a concrete pair of mappings differing only in entry
order. -/
theorem claim1_witness :
    dumpValue (.jobj (.ofList [("title", .jstr "T"), ("description", .jstr "D")])) =
      dumpValue (.jobj (.ofList [("description", .jstr "D"), ("title", .jstr "T")])) ∧
    ProposalAnchorer.compute_hash
        (.jobj (.ofList [("title", .jstr "T"), ("description", .jstr "D")])) =
      ProposalAnchorer.compute_hash
        (.jobj (.ofList [("description", .jstr "D"), ("title", .jstr "T")])) :=
  claim1_canonicalization_order_independent _ _
    (List.Perm.swap (("description", JValue.jstr "D") : String × JValue)
      ("title", JValue.jstr "T") [])
    (by decide)

/-! ## Success and failure of serialization -/

mutual
theorem dumpValue_isOk : ∀ v : JValue, isOkE (dumpValue v) = !hasUnsupportedV v
  | .jstr _ => rfl
  | .jint _ => rfl
  | .jnan => rfl
  | .jbool _ => rfl
  | .jnull => rfl
  | .junsupported => rfl
  | .jarr xs => by
      have h := dumpArr_isOk xs
      simp only [dumpValue, hasUnsupportedV]
      cases hd : dumpArr xs <;> simp only [hd, isOkE] at h ⊢ <;> exact h
  | .jobj l => by
      have h := dumpObj_isOk l
      simp only [dumpValue, hasUnsupportedV]
      cases hd : dumpObj l <;> simp only [hd, isOkE] at h ⊢ <;> exact h

theorem dumpArr_isOk : ∀ xs : JArr, isOkE (dumpArr xs) = !hasUnsupportedA xs
  | .nil => rfl
  | .cons v rest => by
      have h1 := dumpValue_isOk v
      have h2 := dumpArr_isOk rest
      simp only [dumpArr, hasUnsupportedA]
      cases hv : dumpValue v <;> cases hr : dumpArr rest <;>
        simp only [hv, hr, isOkE] at h1 h2 ⊢ <;>
          simp [← h1, ← h2]

theorem dumpObj_isOk : ∀ l : JObj, isOkE (dumpObj l) = !hasUnsupportedO l
  | .nil => rfl
  | .cons k v rest => by
      have h1 := dumpValue_isOk v
      have h2 := dumpObj_isOk rest
      simp only [dumpObj, hasUnsupportedO]
      cases hv : dumpValue v <;> cases hr : dumpObj rest <;>
        simp only [hv, hr, isOkE] at h1 h2 ⊢ <;>
          simp [← h1, ← h2]
end

/-- A value containing an unserializable object makes compute_hash raise
the encoder TypeError. -/
theorem compute_hash_error_of_unsupported (v : JValue) (h : hasUnsupportedV v = true) :
    ProposalAnchorer.compute_hash v = .error .typeError := by
  have hok := dumpValue_isOk v
  rw [h] at hok
  cases hd : dumpValue v with
  | error e =>
      cases e
      simp [ProposalAnchorer.compute_hash, hd]
  | ok nj =>
      rw [hd] at hok
      simp [isOkE] at hok

/-- A value free of unserializable objects always hashes. -/
theorem compute_hash_ok_of_supported (v : JValue) (h : hasUnsupportedV v = false) :
    ∃ ch, ProposalVerifier.compute_hash v = .ok ch := by
  have hok := dumpValue_isOk v
  rw [h] at hok
  cases hd : dumpValue v with
  | error e =>
      rw [hd] at hok
      simp [isOkE] at hok
  | ok nj =>
      exact ⟨sha256hex (strToBytes nj), by simp [ProposalVerifier.compute_hash, hd]⟩

/-! ## Shape of the rendered digest -/

theorem hexDigitChar_lower (n : Nat) : isLowerHexChar (hexDigitChar (n % 16)) = true := by
  have h : n % 16 < 16 := Nat.mod_lt _ (by omega)
  generalize hk : n % 16 = k at h ⊢
  interval_cases k <;> decide

theorem hex8chars_lower (w : Nat) : (hex8chars w).all isLowerHexChar = true := by
  simp [hex8chars, hexDigitChar_lower]

theorem sha256hex_length (msg : List Nat) : (sha256hex msg).length = 64 := by
  rfl

theorem sha256hex_lower (msg : List Nat) :
    (sha256hex msg).data.all isLowerHexChar = true := by
  simp only [sha256hex, String.data, List.all_append, hex8chars_lower, Bool.and_self]

/-- C3: the concrete content with keys inserted as title, description,
proposer canonicalizes to exactly the sorted, whitespace-free byte string,
and compute_hash of any content that serializes returns the SHA-256 digest
of its canonical bytes, rendered as 64 lowercase hexadecimal characters. -/
theorem claim3_concrete_canonicalization_and_digest_format :
    dumpValue exampleContent =
      .ok "\x7b\"description\":\"D\",\"proposer\":\"P\",\"title\":\"T\"\x7d" ∧
    ∀ (v : JValue) (s : String), ProposalAnchorer.compute_hash v = .ok s →
      (∃ nj, dumpValue v = .ok nj ∧ s = sha256hex (strToBytes nj)) ∧
      s.length = 64 ∧ s.data.all isLowerHexChar = true := by
  refine ⟨rfl, fun v s h => ?_⟩
  simp only [ProposalAnchorer.compute_hash] at h
  cases hd : dumpValue v <;> rw [hd] at h
  · simp at h
  · rename_i nj
    simp only [Except.ok.injEq] at h
    subst h
    exact ⟨⟨nj, rfl, rfl⟩, sha256hex_length _, sha256hex_lower _⟩

/-- Witness for C3 at the spec scenario content. -/
theorem claim3_witness :
    ProposalAnchorer.compute_hash exampleContent =
      .ok "7fb7b755490dc11f8f043dafbddc6dcf3c23ced0d74528774fd91cf8b604e416" ∧
    ((∃ nj, dumpValue exampleContent = .ok nj ∧
        "7fb7b755490dc11f8f043dafbddc6dcf3c23ced0d74528774fd91cf8b604e416" =
          sha256hex (strToBytes nj)) ∧
      "7fb7b755490dc11f8f043dafbddc6dcf3c23ced0d74528774fd91cf8b604e416".length = 64 ∧
      "7fb7b755490dc11f8f043dafbddc6dcf3c23ced0d74528774fd91cf8b604e416".data.all
        isLowerHexChar = true) :=
  ⟨rfl, claim3_concrete_canonicalization_and_digest_format.2 exampleContent _ rfl⟩

/-! ## NaN content and unsupported content -/

/-- C7 counterexample: compute_hash does not raise on a content mapping
holding a NaN number. json.dumps is called with its default allow_nan=True
and serializes the value as the token NaN, so compute_hash returns a
digest. -/
theorem claim7_counterexample :
    ProposalAnchorer.compute_hash nanContent =
      .ok "c238cb6e9ac5407491b0988102620ab9445290d2ed7713c516a2b28bd2388968" := by
  rfl

/-- C7 amended: canonicalization fails with the encoder error exactly when
the content holds a value of an unsupported type; a NaN number is
representable (serialized as NaN), so compute_hash succeeds on NaN
content instead of raising. -/
theorem claim7_amended :
    (∀ v : JValue, hasUnsupportedV v = true →
      ProposalAnchorer.compute_hash v = .error .typeError) ∧
    isOkE (ProposalAnchorer.compute_hash nanContent) = true :=
  ⟨compute_hash_error_of_unsupported, rfl⟩

/-- Witness for the amended C7 at a content mapping holding an
unserializable object. -/
theorem claim7_amended_witness :
    hasUnsupportedV unsupportedContent = true ∧
    ProposalAnchorer.compute_hash unsupportedContent = .error .typeError :=
  ⟨by decide, claim7_amended.1 unsupportedContent (by decide)⟩

/-! ## The four compute_hash methods agree -/

/-- C9: the anchorer and the verifier hash computations are the same
function, in the IPFS-based pair and in the Arweave-based pair alike: on
every proposal value all four methods return the identical result. -/
theorem claim9_compute_hash_equivalence (p : JValue) :
    ProposalAnchorer.compute_hash p = ProposalVerifier.compute_hash p ∧
    ProposalAnchorer.compute_hash p = CommandsAnchorer.compute_hash p ∧
    ProposalAnchorer.compute_hash p = CommandsVerifier.compute_hash p :=
  ⟨rfl, rfl, rfl⟩

/-! ## load_wallet never raises -/

/-- C10: for every state of the wallet file, load_wallet returns normally:
the parsed value when the file parses, None when the file is absent, and
None when its contents are not valid JSON; the caught exceptions never
propagate. -/
theorem claim10_load_wallet_total (st : WalletFileState) :
    WalletManager.load_wallet st =
      .ok (match st with
           | .absent => none
           | .presentInvalid => none
           | .presentValid v => some v) := by
  cases st <;> rfl

/-! ## Verifier claims -/

/-- C4: when the transaction exists but its metadata has no entry under
the reserved label (entries under other labels are skipped by the label
filter), verify_proposal raises the record-not-found error instead of
reporting any result. -/
theorem claim4_record_not_found (env : VerifyEnv) (tx_id : String)
    (entries : List MetaEntry)
    (hchain : env.chain tx_id = .ok entries)
    (hlabels : ∀ e ∈ entries, toString e.label ≠ toString env.metadata_label) :
    ProposalVerifier.verify_proposal env tx_id =
      (.error .recordNotFound, [.fetchedMetadata tx_id]) := by
  have hfind : entries.find?
      (fun meta => toString meta.label == toString env.metadata_label) = none := by
    apply List.find?_eq_none.mpr
    intro e he
    simp [hlabels e he]
  simp [ProposalVerifier.verify_proposal, ProposalVerifier.fetch_transaction_metadata,
        hchain, hfind]

/-- Witness for C4: a transaction carrying only an entry under an
unrelated label. -/
theorem claim4_witness :
    ProposalVerifier.verify_proposal
        ⟨1337, fun _ => .ok [⟨721, .jobj (.cons "name" (.jstr "nft") .nil)⟩],
         fun _ => .error ()⟩ "tx1" =
      (.error .recordNotFound, [.fetchedMetadata "tx1"]) :=
  claim4_record_not_found _ "tx1" _ rfl (by decide)

/-- C5 counterexample: an anchor record that is an empty mapping has both
the fingerprint and the storage-handle field absent, yet verify_proposal
raises the record-not-found error, not the missing-field error: the
record is falsy, so the `if not metadata` check fires first. -/
theorem claim5_counterexample :
    ProposalVerifier.verify_proposal
        ⟨1337, fun _ => .ok [⟨1337, .jobj .nil⟩], fun _ => .error ()⟩ "tx1" =
      (.error .recordNotFound, [.fetchedMetadata "tx1"]) ∧
    VerifyError.recordNotFound ≠ VerifyError.missingField :=
  ⟨rfl, by decide⟩

/-- C5 amended: for every fetched anchor record that is a non-empty
mapping in which the fingerprint field or the storage-handle field is
absent, verify_proposal raises the missing-field error, and the trace
shows no content retrieval was attempted; a record that is an empty
mapping raises the record-not-found error instead. -/
theorem claim5_amended_missing_field (env : VerifyEnv) (tx_id : String)
    (entries : List MetaEntry) (me : MetaEntry) (md : JObj)
    (hchain : env.chain tx_id = .ok entries)
    (hfind : entries.find?
      (fun meta => toString meta.label == toString env.metadata_label) = some me)
    (hmd : me.json_metadata = .jobj md)
    (hne : md ≠ .nil)
    (hmiss : md.get "proposal_hash" = none ∨ md.get "ipfs_cid" = none) :
    ProposalVerifier.verify_proposal env tx_id =
      (.error .missingField, [.fetchedMetadata tx_id]) := by
  have htr : pyTruthy (.jobj md) = true := by
    cases md
    · exact absurd rfl hne
    · rfl
  have hcond : (!pyTruthyOpt (md.get "proposal_hash") ||
      !pyTruthyOpt (md.get "ipfs_cid")) = true := by
    rcases hmiss with hm | hm <;> simp [hm, pyTruthyOpt]
  simp [ProposalVerifier.verify_proposal, ProposalVerifier.fetch_transaction_metadata,
        hchain, hfind, hmd, htr, hcond]

/-- Witness for the amended C5: a record carrying only a fingerprint, no
storage handle. -/
theorem claim5_amended_witness :
    ProposalVerifier.verify_proposal
        ⟨1337, fun _ => .ok [⟨1337, .jobj (.cons "proposal_hash" (.jstr "abc") .nil)⟩],
         fun _ => .error ()⟩ "tx1" =
      (.error .missingField, [.fetchedMetadata "tx1"]) :=
  claim5_amended_missing_field _ "tx1" _ _ _ rfl rfl rfl (by simp) (by simp [JObj.get])

/-- C2: when the fetched metadata holds a non-empty fingerprint and a
non-empty storage handle and content retrieval succeeds (with content
free of unserializable objects, as parsed JSON always is),
verify_proposal returns normally, and verification_successful is exactly
the string equality of the on-chain fingerprint with the recomputed one;
a mismatch is a returned result, not an exception. -/
theorem claim2_verification_result (env : VerifyEnv) (tx_id : String)
    (entries : List MetaEntry) (me : MetaEntry) (md : JObj)
    (fp cid : String) (proposal : JValue)
    (hchain : env.chain tx_id = .ok entries)
    (hfind : entries.find?
      (fun meta => toString meta.label == toString env.metadata_label) = some me)
    (hmd : me.json_metadata = .jobj md)
    (hfp : md.get "proposal_hash" = some (.jstr fp)) (hfpne : fp ≠ "")
    (hcid : md.get "ipfs_cid" = some (.jstr cid)) (hcidne : cid ≠ "")
    (hretr : env.ipfs (.jstr cid) = .ok proposal)
    (hsupp : hasUnsupportedV proposal = false) :
    ∃ ch, ProposalVerifier.compute_hash proposal = .ok ch ∧
      ProposalVerifier.verify_proposal env tx_id =
        (.ok ⟨tx_id, fp == ch, .jstr fp, ch, .jstr cid, md.get "timestamp",
              proposal, .jobj md⟩,
         [.fetchedMetadata tx_id, .retrievedContent (.jstr cid)]) := by
  obtain ⟨ch, hch⟩ := compute_hash_ok_of_supported proposal hsupp
  refine ⟨ch, hch, ?_⟩
  have htr : pyTruthy (.jobj md) = true := by
    cases hm : md
    · rw [hm] at hfp
      simp [JObj.get] at hfp
    · rfl
  have hfpb : pyTruthy (.jstr fp) = true := by
    simp [pyTruthy, beq_eq_false_iff_ne.mpr hfpne]
  have hcidb : pyTruthy (.jstr cid) = true := by
    simp [pyTruthy, beq_eq_false_iff_ne.mpr hcidne]
  simp [ProposalVerifier.verify_proposal, ProposalVerifier.fetch_transaction_metadata,
        hchain, hfind, hmd, htr, hfp, hcid, pyTruthyOpt, hfpb, hcidb,
        hretr, hch, pyEqStr]

/-- Witness for C2: a concrete matching verification run. -/
theorem claim2_witness :
    ∃ ch, ProposalVerifier.compute_hash exampleContent = .ok ch ∧
      ProposalVerifier.verify_proposal
          ⟨1337,
           fun _ => .ok [⟨1337,
             .jobj (.cons "proposal_hash"
               (.jstr "7fb7b755490dc11f8f043dafbddc6dcf3c23ced0d74528774fd91cf8b604e416")
               (.cons "ipfs_cid" (.jstr "QmExample") .nil))⟩],
           fun _ => .ok exampleContent⟩ "tx1" =
        (.ok ⟨"tx1",
              "7fb7b755490dc11f8f043dafbddc6dcf3c23ced0d74528774fd91cf8b604e416" == ch,
              .jstr "7fb7b755490dc11f8f043dafbddc6dcf3c23ced0d74528774fd91cf8b604e416",
              ch, .jstr "QmExample",
              (JObj.cons "proposal_hash"
                (.jstr "7fb7b755490dc11f8f043dafbddc6dcf3c23ced0d74528774fd91cf8b604e416")
                (.cons "ipfs_cid" (.jstr "QmExample") .nil)).get "timestamp",
              exampleContent,
              .jobj (.cons "proposal_hash"
                (.jstr "7fb7b755490dc11f8f043dafbddc6dcf3c23ced0d74528774fd91cf8b604e416")
                (.cons "ipfs_cid" (.jstr "QmExample") .nil))⟩,
         [.fetchedMetadata "tx1", .retrievedContent (.jstr "QmExample")]) :=
  claim2_verification_result _ "tx1" _ _ _ _ _ _
    rfl rfl rfl rfl (by decide) rfl (by decide) rfl (by decide)

/-! ## Anchorer claims -/

/-- C6: when the funding source returns an empty input set for the wallet
address, build_transaction raises the no-funds error; the returned trace
holds only the UTxO fetch, so no transaction was built or submitted. -/
theorem claim6_no_funds (env : AnchorEnv) (metadata : CardanoMetadata) (w : WalletData)
    (hw : env.wallet = some w) (hu : env.utxos w.address = []) :
    ProposalAnchorer.build_transaction env metadata =
      (.error .noFunds, [.fetched_utxos w.address]) := by
  simp [ProposalAnchorer.build_transaction, hw, hu]

/-- Witness for C6 at a concrete environment with a funded wallet file
but no UTxOs. -/
theorem claim6_witness :
    ProposalAnchorer.build_transaction
        ⟨1337, 1700000000, some ⟨"addr_test1xyz", "skey1"⟩, fun _ => [],
         fun _ => .error (), fun _ => .error ()⟩
        ⟨1337, ⟨"hash1", "cid1", 1700000000, "community_proposal"⟩⟩ =
      (.error .noFunds, [.fetched_utxos "addr_test1xyz"]) :=
  claim6_no_funds _ _ ⟨"addr_test1xyz", "skey1"⟩ rfl rfl

/-- C8: a completed anchor run performs its four steps in fixed order —
hash computed, payload stored yielding the handle, anchor record created
embedding that handle and that fingerprint, transaction built and
submitted — as the returned trace records, and the record embeds exactly
the hash and handle obtained in the first two steps. -/
theorem claim8_anchor_step_order (env : AnchorEnv) (proposal : JValue)
    (h cid tx_id : String) (w : WalletData)
    (hhash : ProposalAnchorer.compute_hash proposal = .ok h)
    (hupload : env.ipfs_add proposal = .ok cid)
    (hw : env.wallet = some w)
    (hutxo : (env.utxos w.address).isEmpty = false)
    (hsubmit : env.submit ⟨env.utxos w.address, w.address, 1000000,
        ProposalAnchorer.create_metadata env.metadata_label env.now h cid,
        w.payment_skey⟩ = .ok tx_id) :
    ProposalAnchorer.anchor_proposal env proposal =
      (.ok ⟨tx_id, h, cid, env.metadata_label⟩,
       [.computed_hash h, .uploaded cid,
        .created_metadata (ProposalAnchorer.create_metadata env.metadata_label env.now h cid),
        .fetched_utxos w.address,
        .submitted ⟨env.utxos w.address, w.address, 1000000,
          ProposalAnchorer.create_metadata env.metadata_label env.now h cid,
          w.payment_skey⟩]) ∧
    (ProposalAnchorer.create_metadata env.metadata_label env.now h cid).record.proposal_hash
      = h ∧
    (ProposalAnchorer.create_metadata env.metadata_label env.now h cid).record.ipfs_cid
      = cid := by
  refine ⟨?_, rfl, rfl⟩
  simp [ProposalAnchorer.anchor_proposal, ProposalAnchorer.build_transaction,
        hhash, hupload, hw, hutxo, hsubmit]

/-- Witness for C8 at a concrete successful anchor run. -/
theorem claim8_witness :
    ProposalAnchorer.anchor_proposal
        ⟨1337, 1700000000, some ⟨"addr_test1xyz", "skey1"⟩,
         fun _ => [⟨"aa11", 0, "addr_test1xyz", 10000000⟩],
         fun _ => .ok "QmCID1", fun _ => .ok "txid_abc"⟩ exampleContent =
      (.ok ⟨"txid_abc",
            "7fb7b755490dc11f8f043dafbddc6dcf3c23ced0d74528774fd91cf8b604e416",
            "QmCID1", 1337⟩,
       [.computed_hash "7fb7b755490dc11f8f043dafbddc6dcf3c23ced0d74528774fd91cf8b604e416",
        .uploaded "QmCID1",
        .created_metadata (ProposalAnchorer.create_metadata 1337 1700000000
          "7fb7b755490dc11f8f043dafbddc6dcf3c23ced0d74528774fd91cf8b604e416" "QmCID1"),
        .fetched_utxos "addr_test1xyz",
        .submitted ⟨[⟨"aa11", 0, "addr_test1xyz", 10000000⟩], "addr_test1xyz", 1000000,
          ProposalAnchorer.create_metadata 1337 1700000000
            "7fb7b755490dc11f8f043dafbddc6dcf3c23ced0d74528774fd91cf8b604e416" "QmCID1",
          "skey1"⟩]) ∧
    (ProposalAnchorer.create_metadata 1337 1700000000
        "7fb7b755490dc11f8f043dafbddc6dcf3c23ced0d74528774fd91cf8b604e416"
        "QmCID1").record.proposal_hash =
      "7fb7b755490dc11f8f043dafbddc6dcf3c23ced0d74528774fd91cf8b604e416" ∧
    (ProposalAnchorer.create_metadata 1337 1700000000
        "7fb7b755490dc11f8f043dafbddc6dcf3c23ced0d74528774fd91cf8b604e416"
        "QmCID1").record.ipfs_cid = "QmCID1" :=
  claim8_anchor_step_order _ exampleContent _ _ _ ⟨"addr_test1xyz", "skey1"⟩
    rfl rfl rfl rfl rfl

end CardanoAnchor
